import Mathlib

/-!
Verification of the StatusTracker widget (ui/packages/app/src/components/StatusTracker/
StatusTracker.svelte) and the embedded image-editor bridge component.

The embedding models:
* the module-level scroll coordinator (`scroll_into_view` with its page-wide
  `items` list and `called` flag, and the flush performed on the next
  animation frame);
* the per-instance progress/ETA timer (`start_timer`, `stop_timer`, the
  `run` animation-frame loop, the `onDestroy` hook, the `$:` status block and
  the `$:` eta block);
* the image-editor bridge (`processMessages`, `compareValues`).

Numbers (timestamps in milliseconds, eta and elapsed in seconds, pixel
positions) are modelled as rationals; the arithmetic involved (division by
1000, division by eta, min) is exact on the values the claims mention.
String rendering via `toFixed(1)` is not modelled: `formatted_eta` stores the
numeric value that the source formats, so "displayed value" claims are read
on that number.
-/

namespace StatusTracker

/-- The display mode, `window.__gradio_mode__`: a global string that may also
be unset (`none`). -/
abbrev GradioMode := Option String

/-- Module-level state of the scroll coordinator: the page-wide pending list
`items` (element handles, modelled as element ids) and the `called` flag
("a flush is already scheduled"). -/
structure ScrollModuleState where
  items : List Nat
  called : Bool
  deriving DecidableEq

/-- The guard at the top of `scroll_into_view`:
`window.__gradio_mode__ === "website" || (window.__gradio_mode__ !== "app" && enable !== true)`.
`enable : Option Bool` models the `boolean | null` parameter (`none` = null);
the JS strict comparison `enable !== true` holds exactly when
`enable ≠ some true`. -/
def scroll_guard (mode : GradioMode) (enable : Option Bool) : Bool :=
  decide (mode = some "website" ∨ (mode ≠ some "app" ∧ enable ≠ some true))

/-- One call to `scroll_into_view el enable`.  Returns the new module state
and whether this call took the scheduling path (reached `await tick();
requestAnimationFrame(...)`), i.e. whether it is the call that will perform
the flush.  A guarded call returns before touching any state. -/
def scroll_into_view (mode : GradioMode) (el : Nat) (enable : Option Bool)
    (s : ScrollModuleState) : ScrollModuleState × Bool :=
  if scroll_guard mode enable then (s, false)
  else
    let s1 : ScrollModuleState := { s with items := s.items ++ [el] }
    if s.called = false then ({ s1 with called := true }, true)
    else (s1, false)

/-- A synchronous update pass: the sequence of `scroll_into_view` calls
raised in one tick, each call given by its element id and `enable` argument.
Returns the final module state and the number of calls that took the
scheduling path (the number of flushes that will run for this batch). -/
def runPass (mode : GradioMode) (calls : List (Nat × Option Bool))
    (s : ScrollModuleState) : ScrollModuleState × Nat :=
  match calls with
  | [] => (s, 0)
  | c :: rest =>
    let r1 := scroll_into_view mode c.1 c.2 s
    let r2 := runPass mode rest r1.1
    (r2.1, (if r1.2 then 1 else 0) + r2.2)

/-- The minimum-selection loop of the flush callback:
`let min = [0, 0]; for (i = 0; i < items.length; i++) { ... if (i === 0 || box.top + window.scrollY <= min[0]) { min[0] = box.top + window.scrollY; min[1] = i; } }`
over the list of positions `box.top + window.scrollY`, with running index `i`
and accumulator `min = (min[0], min[1])`. -/
def flushMinAux : List ℚ → Nat → ℚ × Nat → ℚ × Nat
  | [], _, acc => acc
  | x :: xs, i, acc =>
      flushMinAux xs (i + 1) (if i = 0 ∨ x ≤ acc.1 then (x, i) else acc)

/-- `flushMin p` is the `min` pair computed by the flush loop on the position
list `p`, starting from the initial accumulator `[0, 0]`. -/
def flushMin (p : List ℚ) : ℚ × Nat := flushMinAux p 0 (0, 0)

/-- The animation-frame flush: read each pending element's position
(`top el + scrollY` models `getBoundingClientRect().top + window.scrollY`
at flush time), run the minimum-selection loop, scroll to `min[0] - 20`,
and reset `items` and `called`.  Returns the new module state together with
the scroll target `min[0] - 20` and the selected candidate index `min[1]`. -/
def flush (top : Nat → ℚ) (scrollY : ℚ) (s : ScrollModuleState) :
    ScrollModuleState × (ℚ × Nat) :=
  let m := flushMin (s.items.map (fun e => top e + scrollY))
  (⟨[], false⟩, (m.1 - 20, m.2))

/-- Specification of the flush loop's result on a position list `p`:
the pair `(v, j)` is such that `p[j] = v`, `v` is a minimum of `p`, and
every strictly later position is strictly greater than `v` — i.e. `j` is
the LAST index attaining the minimum (the loop's `<=` comparison lets every
tying candidate overwrite the running minimum). -/
def isMinLatest (p : List ℚ) (m : ℚ × Nat) : Prop :=
  ∃ hj : m.2 < p.length,
    p.get ⟨m.2, hj⟩ = m.1 ∧ (∀ x ∈ p, m.1 ≤ x) ∧
    ∀ k, (hk : k < p.length) → m.2 < k → m.1 < p.get ⟨k, hk⟩

/-- Per-instance state of the progress/ETA timer, together with the
animation-frame scheduler visible to it.  Timestamps (`timer_start`, the
`now` arguments) are `performance.now()` values in milliseconds; `timer_diff`
is elapsed seconds; `eta`, `old_eta` and `formatted_eta` are in seconds
(`formatted_eta` stores the numeric value that `toFixed(1)` renders).
`pending_frames` counts the `requestAnimationFrame` callbacks of `run` that
are queued but have not fired yet — the browser does not cancel them when
the component is destroyed. -/
structure TimerState where
  _timer : Bool
  timer_start : ℚ
  timer_diff : ℚ
  eta : Option ℚ
  old_eta : Option ℚ
  formatted_eta : Option ℚ
  queue : Bool
  status : String
  pending_frames : Nat
  deriving DecidableEq

/-- `function run()`: schedules one animation-frame callback. -/
def run (s : TimerState) : TimerState :=
  { s with pending_frames := s.pending_frames + 1 }

/-- One queued animation-frame callback of `run` fires at time `now`:
`timer_diff = (performance.now() - timer_start) / 1000; if (_timer) run();`.
The write to `timer_diff` is unconditional; only the rescheduling is guarded
by the `_timer` flag.  If no callback is queued, nothing happens. -/
def frame (now : ℚ) (s : TimerState) : TimerState :=
  if s.pending_frames = 0 then s
  else
    let s1 := { s with pending_frames := s.pending_frames - 1,
                       timer_diff := (now - s.timer_start) / 1000 }
    if s1._timer then run s1 else s1

/-- `start_timer`: `timer_start = performance.now(); timer_diff = 0;
_timer = true; run();`. -/
def start_timer (now : ℚ) (s : TimerState) : TimerState :=
  run { s with timer_start := now, timer_diff := 0, _timer := true }

/-- `stop_timer`: `timer_diff = 0; if (!_timer) return; _timer = false;`. -/
def stop_timer (s : TimerState) : TimerState :=
  let s1 := { s with timer_diff := 0 }
  if s1._timer = false then s1 else { s1 with _timer := false }

/-- The `onDestroy` hook: `if (_timer) stop_timer();`.  It does not cancel
any already-queued animation-frame callback. -/
def onDestroy_hook (s : TimerState) : TimerState :=
  if s._timer then stop_timer s else s

/-- The reactive status block
`$: { if (status === "pending") start_timer(); else stop_timer(); }`
as it runs after `status` has been invalidated. -/
def status_block (now : ℚ) (s : TimerState) : TimerState :=
  if s.status = "pending" then start_timer now s else stop_timer s

/-- A status update from the host.  Svelte invalidates a primitive prop only
when the assigned value differs from the current one (`safe_not_equal`), so
assigning an equal status string does not rerun the reactive block. -/
def notify_status (new : String) (now : ℚ) (s : TimerState) : TimerState :=
  if new = s.status then s
  else status_block now { s with status := new }

/-- The reactive eta block, run at time `now` after `eta` has changed:
`if (eta === null) { eta = old_eta; } else if (queue) { eta = (performance.now() - timer_start) / 1000 + eta; }
if (eta != null) { formatted_eta = eta.toFixed(1); old_eta = eta; }`. -/
def eta_block (now : ℚ) (s : TimerState) : TimerState :=
  let e1 : Option ℚ :=
    match s.eta with
    | none => s.old_eta
    | some v => if s.queue then some ((now - s.timer_start) / 1000 + v) else some v
  match e1 with
  | none => { s with eta := e1 }
  | some v => { s with eta := some v, formatted_eta := some v, old_eta := some v }

/-- The host assigns the `eta` prop (possibly null) at time `now`; the
reactive eta block then runs. -/
def supply_eta (e : Option ℚ) (now : ℚ) (s : TimerState) : TimerState :=
  eta_block now { s with eta := e }

/-- The reactive progress computation:
`$: progress = eta === null || eta <= 0 || !timer_diff ? null : Math.min(timer_diff / eta, 1);`
(`!timer_diff` holds exactly when `timer_diff` is zero, the only falsy
rational). -/
def progress (eta : Option ℚ) (timer_diff : ℚ) : Option ℚ :=
  match eta with
  | none => none
  | some e => if e ≤ 0 ∨ timer_diff = 0 then none else some (min (timer_diff / e) 1)

/-- An idle widget state, as after component initialisation with no task
running and no eta ever observed. -/
def initTimer : TimerState :=
  { _timer := false, timer_start := 0, timer_diff := 0, eta := none,
    old_eta := none, formatted_eta := none, queue := false,
    status := "complete", pending_frames := 0 }

/-- A widget in the running state (status `pending`, timer flag on, one
queued frame callback) with last-known eta 3. -/
def pendingTimer : TimerState :=
  { initTimer with status := "pending", _timer := true, pending_frames := 1, old_eta := some 3 }

/-- A widget in the running state (status `pending`, timer flag on, one
queued frame callback). -/
def runningTimer : TimerState :=
  { initTimer with status := "pending", _timer := true, pending_frames := 1 }

namespace ImageEditor

/-- Observable effects of the image-editor bridge: posting an
`image-editor-input` message into the iframe (carrying the current image
payload), or dispatching a `change` event with the adopted image and mask. -/
inductive Effect where
  | post (image : Option String) : Effect
  | change (image : Option String) (mask : Option String) : Effect
  deriving DecidableEq

/-- A window `message` event as seen by `processMessages`: the sender's
origin and source window (modelled as an id) and the fields of `e.data`
that the handler reads (`e.data?.type`, `e.data.detail.image`,
`e.data.detail.mask`). -/
structure EditorMsg where
  origin : String
  sourceId : Nat
  dataType : Option String
  detailImage : Option String
  detailMask : Option String
  deriving DecidableEq

/-- The bridge component's state: `imageEditorValue` (the image last pushed
to or received from the editor) and the `value` prop's `image` and `mask`
fields. -/
structure EditorState where
  imageEditorValue : Option String
  valueImage : Option String
  valueMask : Option String
  deriving DecidableEq

/-- `function processMessages(e)`:
`if (e.data?.type === 'loaded')` post the current `value.image` into the
iframe; `if (e.data?.type === 'image-editor-output')` dispatch a `change`
event with the payload's image and mask and assign `imageEditorValue`,
`value.mask` and `value.image` from the payload.  The handler never reads
`e.origin` or `e.source`. -/
def processMessages (e : EditorMsg) (s : EditorState) : EditorState × List Effect :=
  let loadedEffects :=
    if e.dataType = some "loaded" then [Effect.post s.valueImage] else []
  if e.dataType = some "image-editor-output" then
    ({ imageEditorValue := e.detailImage,
       valueImage := e.detailImage, valueMask := e.detailMask },
     loadedEffects ++ [Effect.change e.detailImage e.detailMask])
  else (s, loadedEffects)

/-- `compareValues(val)`, invoked reactively with `val = value`:
`if (imageEditor && imageEditorValue !== val.image)` post `value.image` into
the iframe.  `hasIframe` models the truthiness of the `imageEditor` element
binding. -/
def compareValues (hasIframe : Bool) (s : EditorState) : List Effect :=
  if hasIframe = true ∧ s.imageEditorValue ≠ s.valueImage
  then [Effect.post s.valueImage] else []

/-- A concrete `image-editor-output` event from an untrusted origin. -/
def outMsgEvil : EditorMsg :=
  ⟨"https://evil.example", 99, some "image-editor-output", some "img2", some "mask2"⟩

/-- The same `data` payload sent from the expected origin. -/
def outMsgHost : EditorMsg :=
  ⟨"https://host.example", 0, some "image-editor-output", some "img2", some "mask2"⟩

/-- A bridge state currently holding image `img1` in sync with the editor. -/
def stSynced : EditorState := ⟨some "img1", some "img1", none⟩

/-- A concrete `image-editor-output` event with no mask payload. -/
def outMsgPlain : EditorMsg := ⟨"x", 1, some "image-editor-output", some "img2", none⟩

/-- A bridge state with nothing yet pushed to the editor. -/
def stFresh : EditorState := ⟨none, some "img1", none⟩

end ImageEditor

lemma isMinLatest_snoc (p : List ℚ) (m : ℚ × Nat) (x : ℚ)
    (h : isMinLatest p m) :
    isMinLatest (p ++ [x]) (if x ≤ m.1 then (x, p.length) else m) := by
  obtain ⟨hj, hget, hmin, hlat⟩ := h
  by_cases hx : x ≤ m.1
  · rw [if_pos hx]
    refine ⟨by simp, by simp, ?_, ?_⟩
    · intro y hy
      rcases List.mem_append.1 hy with h1 | h1
      · exact le_trans hx (hmin y h1)
      · rw [List.mem_singleton.1 h1]
    · intro k hk hlt
      simp only [List.length_append, List.length_singleton] at hk
      omega
  · rw [if_neg hx]
    push_neg at hx
    have hj2 : m.2 < (p ++ [x]).length := by
      simp only [List.length_append, List.length_singleton]; omega
    refine ⟨hj2, ?_, ?_, ?_⟩
    · rw [show (p ++ [x]).get ⟨m.2, hj2⟩ = p.get ⟨m.2, hj⟩ by
        simp [List.getElem_append, hj]]
      exact hget
    · intro y hy
      rcases List.mem_append.1 hy with h1 | h1
      · exact hmin y h1
      · rw [List.mem_singleton.1 h1]; exact le_of_lt hx
    · intro k hk hlt
      by_cases hkp : k < p.length
      · rw [show (p ++ [x]).get ⟨k, hk⟩ = p.get ⟨k, hkp⟩ by
          simp [List.getElem_append, hkp]]
        exact hlat k hkp hlt
      · have hkeq : k = p.length := by
          simp only [List.length_append, List.length_singleton] at hk
          omega
        subst hkeq
        rw [show (p ++ [x]).get ⟨p.length, hk⟩ = x by simp]
        exact hx

lemma flushMinAux_spec (xs : List ℚ) : ∀ (p : List ℚ) (m : ℚ × Nat),
    p ≠ [] → isMinLatest p m →
    isMinLatest (p ++ xs) (flushMinAux xs p.length m) := by
  induction xs with
  | nil => intro p m _ h; simpa using h
  | cons x xs ih =>
    intro p m hp h
    have hlen : p.length ≠ 0 := by
      intro h0; exact hp (List.length_eq_zero.1 h0)
    have hstep := isMinLatest_snoc p m x h
    have heq : flushMinAux (x :: xs) p.length m =
        flushMinAux xs (p.length + 1) (if x ≤ m.1 then (x, p.length) else m) := by
      simp only [flushMinAux]
      congr 1
      by_cases hx : x ≤ m.1 <;> simp [hx, hlen]
    rw [heq]
    have := ih (p ++ [x]) (if x ≤ m.1 then (x, p.length) else m)
      (by simp) hstep
    simpa [List.append_assoc] using this

/-- The flush loop computes the minimum of the position list together with
the LAST index attaining it. -/
lemma flushMin_spec (y : ℚ) (ys : List ℚ) :
    isMinLatest (y :: ys) (flushMin (y :: ys)) := by
  have h0 : isMinLatest [y] (y, 0) := by
    refine ⟨by simp, by simp, ?_, ?_⟩
    · intro z hz; rw [List.mem_singleton.1 hz]
    · intro k hk hlt; simp at hk; omega
  have heq : flushMin (y :: ys) = flushMinAux ys 1 (y, 0) := by
    simp [flushMin, flushMinAux]
  rw [heq]
  have := flushMinAux_spec ys [y] (y, 0) (by simp) h0
  simpa using this

lemma runPass_called (mode : GradioMode) : ∀ (calls : List (Nat × Option Bool))
    (s : ScrollModuleState), (∀ c ∈ calls, scroll_guard mode c.2 = false) →
    s.called = true →
    runPass mode calls s = (⟨s.items ++ calls.map Prod.fst, true⟩, 0) := by
  intro calls
  induction calls with
  | nil => intro s _ hc; simp [runPass, ← hc]
  | cons c rest ih =>
    intro s hacc hc
    have hg : scroll_guard mode c.2 = false := hacc c (List.mem_cons_self c rest)
    have hstep : scroll_into_view mode c.1 c.2 s =
        ({ items := s.items ++ [c.1], called := true }, false) := by
      simp [scroll_into_view, hg, hc]
    simp only [runPass, hstep]
    rw [ih { items := s.items ++ [c.1], called := true }
      (fun d hd => hacc d (List.mem_cons_of_mem c hd)) rfl]
    simp

lemma runPass_fresh (mode : GradioMode) (c : Nat × Option Bool)
    (rest : List (Nat × Option Bool))
    (hacc : ∀ d ∈ c :: rest, scroll_guard mode d.2 = false) :
    runPass mode (c :: rest) ⟨[], false⟩ =
      (⟨(c :: rest).map Prod.fst, true⟩, 1) := by
  have hg : scroll_guard mode c.2 = false := hacc c (List.mem_cons_self c rest)
  have hstep : scroll_into_view mode c.1 c.2 ⟨[], false⟩ =
      (⟨[c.1], true⟩, true) := by
    simp [scroll_into_view, hg]
  simp only [runPass, hstep]
  rw [runPass_called mode rest ⟨[c.1], true⟩
    (fun d hd => hacc d (List.mem_cons_of_mem c hd)) rfl]
  simp

/-- A status notification carrying the value the widget already has does not
rerun the reactive block (no invalidation), leaving the state untouched. -/
lemma notify_status_eq (st : String) (now : ℚ) (s : TimerState)
    (h : s.status = st) : notify_status st now s = s := by
  unfold notify_status
  rw [h]
  simp

/-- C8: a call to `scroll_into_view` made while the display context is
"website", or while the context is not "app" and `enable` is not exactly
`true`, returns immediately: the pending list and the `called` flag are
unchanged and the call does not take the scheduling path, so no flush (and
hence no page scroll) results from it. -/
theorem scroll_into_view_guard_noop (mode : GradioMode) (enable : Option Bool)
    (el : Nat) (s : ScrollModuleState)
    (h : mode = some "website" ∨ (mode ≠ some "app" ∧ enable ≠ some true)) :
    scroll_into_view mode el enable s = (s, false) := by
  simp [scroll_into_view, scroll_guard, h]

/-- Witness for C8 at a concrete input: mode "website", `enable` null. -/
theorem scroll_into_view_guard_noop_witness :
    (some "website" = some "website" ∨
      (some "website" ≠ some "app" ∧ (none : Option Bool) ≠ some true)) ∧
    scroll_into_view (some "website") 7 none ⟨[3], false⟩ = (⟨[3], false⟩, false) :=
  ⟨by decide,
   scroll_into_view_guard_noop (some "website") none 7 ⟨[3], false⟩ (by decide)⟩

/-- C1 (amended): for every batch of `N ≥ 1` scroll requests all accepted by
the guard within one update pass starting from the idle coordinator state,
exactly one call takes the scheduling path (so exactly one flush occurs),
the pending list holds all requested elements in registration order, and the
flush scrolls to (minimum of `top + scrollY` over the candidates) − 20,
selecting as `min[1]` a candidate attaining that minimum such that every
later-registered candidate has a strictly larger position — i.e. ties are
broken towards the LATEST-registered (highest-index) candidate. -/
theorem scroll_batch_flush (mode : GradioMode) (calls : List (Nat × Option Bool))
    (top : Nat → ℚ) (scrollY : ℚ) (hne : calls ≠ [])
    (hacc : ∀ c ∈ calls, scroll_guard mode c.2 = false) :
    (runPass mode calls ⟨[], false⟩).2 = 1 ∧
    (runPass mode calls ⟨[], false⟩).1.items = calls.map Prod.fst ∧
    (flush top scrollY (runPass mode calls ⟨[], false⟩).1).2.1 =
      (flushMin (calls.map (fun c => top c.1 + scrollY))).1 - 20 ∧
    (flush top scrollY (runPass mode calls ⟨[], false⟩).1).2.2 =
      (flushMin (calls.map (fun c => top c.1 + scrollY))).2 ∧
    isMinLatest (calls.map (fun c => top c.1 + scrollY))
      (flushMin (calls.map (fun c => top c.1 + scrollY))) := by
  match calls, hne with
  | c :: rest, _ =>
    rw [runPass_fresh mode c rest hacc]
    refine ⟨rfl, rfl, ?_, ?_, ?_⟩
    · simp [flush, List.map_map, Function.comp_def]
    · simp [flush, List.map_map, Function.comp_def]
    · have : (c :: rest).map (fun d => top d.1 + scrollY) =
          (top c.1 + scrollY) :: rest.map (fun d => top d.1 + scrollY) := by
        simp
      rw [this]
      exact flushMin_spec _ _

/-- Witness for C1 (amended) at a concrete input: two accepted requests,
elements 0 and 1 with positions 35 and 15; one flush, scrolling to
15 − 20 = −5. -/
theorem scroll_batch_flush_witness :
    ([((0 : Nat), (none : Option Bool)), (1, some true)] ≠ []) ∧
    (∀ c ∈ [((0 : Nat), (none : Option Bool)), (1, some true)],
      scroll_guard (some "app") c.2 = false) ∧
    (runPass (some "app") [(0, none), (1, some true)] ⟨[], false⟩).2 = 1 ∧
    (runPass (some "app") [(0, none), (1, some true)] ⟨[], false⟩).1.items =
      [0, 1] ∧
    (flush (fun e => if e = 0 then 30 else 10) 5
      (runPass (some "app") [(0, none), (1, some true)] ⟨[], false⟩).1).2.1 =
      (flushMin ([(0, none), (1, some true)].map
        (fun c => (if c.1 = 0 then (30 : ℚ) else 10) + 5))).1 - 20 := by
  have h := scroll_batch_flush (some "app") [(0, none), (1, some true)]
    (fun e => if e = 0 then 30 else 10) 5 (by decide) (by decide)
  exact ⟨by decide, by decide, h.1, by rw [h.2.1]; rfl, h.2.2.1⟩

/-- C1 counterexample: the claim as stated says that among candidates with
equal positions the earliest-registered (lowest-index) one is chosen.  With
two accepted requests whose elements both sit at position 5, the flush's
selected index `min[1]` is 1, not 0: the `<=` comparison makes the
latest-registered candidate win ties. -/
theorem scroll_tie_latest_counterexample :
    (flush (fun _ => (5 : ℚ)) 0
      (runPass (some "app") [(0, none), (1, none)] ⟨[], false⟩).1).2.2 = 1 ∧
    (flush (fun _ => (5 : ℚ)) 0
      (runPass (some "app") [(0, none), (1, none)] ⟨[], false⟩).1).2.2 ≠ 0 := by
  constructor <;>
    norm_num [flush, flushMin, flushMinAux, runPass, scroll_into_view,
      scroll_guard]

/-- C2: with queueing mode on, supplying `eta = v` at time `now` projects it
by the elapsed time since start — the displayed and stored eta become
`(now - timer_start) / 1000 + v` — and a subsequent supply of `eta = null`
falls back to the stored last-known eta, so the displayed value is
retained. -/
theorem eta_projection (s : TimerState) (v now now2 : ℚ)
    (hq : s.queue = true) :
    (supply_eta (some v) now s).formatted_eta
        = some ((now - s.timer_start) / 1000 + v) ∧
    (supply_eta (some v) now s).old_eta
        = some ((now - s.timer_start) / 1000 + v) ∧
    (supply_eta none now2 (supply_eta (some v) now s)).formatted_eta
        = some ((now - s.timer_start) / 1000 + v) := by
  refine ⟨?_, ?_, ?_⟩ <;> simp [supply_eta, eta_block, hq]

/-- Witness for C2: queueing on, task started at 0, `eta = 5` supplied at
2000 ms (2 s elapsed) displays 7; a later `eta = null` still displays 7. -/
theorem eta_projection_witness :
    ({ initTimer with queue := true } : TimerState).queue = true ∧
    (supply_eta (some 5) 2000 { initTimer with queue := true }).formatted_eta
      = some 7 ∧
    (supply_eta none 9999
      (supply_eta (some 5) 2000 { initTimer with queue := true })).formatted_eta
      = some 7 := by
  have h := eta_projection { initTimer with queue := true } 5 2000 9999 rfl
  refine ⟨rfl, ?_, ?_⟩
  · rw [h.1]; norm_num [initTimer]
  · rw [h.2.2]; norm_num [initTimer]

/-- C3: the progress fraction is `timer_diff / eta` clamped to `[0, 1]`
whenever `eta` is positive and `timer_diff` is non-zero (and non-negative,
as elapsed time always is), and is `null` whenever `eta` is null,
non-positive, or `timer_diff` is zero. -/
theorem progress_clamped (e d : ℚ) (he : 0 < e) (hd : d ≠ 0) (hd0 : 0 ≤ d) :
    progress (some e) d = some (max 0 (min (d / e) 1)) ∧
    (∀ d2 : ℚ, progress none d2 = none) ∧
    (∀ e2 d2 : ℚ, e2 ≤ 0 → progress (some e2) d2 = none) ∧
    (∀ e3 : Option ℚ, progress e3 0 = none) := by
  refine ⟨?_, fun d2 => rfl, ?_, ?_⟩
  · have hdiv : 0 ≤ d / e := div_nonneg hd0 he.le
    have h1 : ¬(e ≤ 0 ∨ d = 0) := by push_neg; exact ⟨he, hd⟩
    simp only [progress, if_neg h1]
    rw [max_eq_right (le_min hdiv zero_le_one)]
  · intro e2 d2 h2; simp [progress, h2]
  · intro e3; cases e3 <;> simp [progress]

/-- Witness for C3: eta 10 and elapsed 4 give 0.4; eta null, eta 0 and
elapsed 0 give no bar. -/
theorem progress_clamped_witness :
    (0 : ℚ) < 10 ∧ (4 : ℚ) ≠ 0 ∧ (0 : ℚ) ≤ 4 ∧
    progress (some 10) 4 = some (2 / 5) ∧
    progress none 4 = none ∧
    progress (some 0) 4 = none ∧
    progress (some 10) 0 = none := by
  have h := progress_clamped 10 4 (by norm_num) (by norm_num) (by norm_num)
  refine ⟨by norm_num, by norm_num, by norm_num, ?_, h.2.1 4,
    h.2.2.1 0 4 le_rfl, h.2.2.2 (some 10)⟩
  rw [h.1]
  norm_num [min_def, max_def]

/-- C4: when the status prop changes to any non-`pending` value the reactive
block calls `stop_timer`: displayed elapsed becomes 0, the `_timer` flag is
cleared, the last-known eta is left unchanged, and a subsequently firing
frame callback does not reschedule (the queued-callback count only
decreases and the flag stays cleared). -/
theorem stop_on_leave_pending (s : TimerState) (new : String) (now nowf : ℚ)
    (hch : new ≠ s.status) (hnp : new ≠ "pending") :
    (notify_status new now s).timer_diff = 0 ∧
    (notify_status new now s)._timer = false ∧
    (notify_status new now s).old_eta = s.old_eta ∧
    (frame nowf (notify_status new now s)).pending_frames
      = (notify_status new now s).pending_frames - 1 ∧
    (frame nowf (notify_status new now s))._timer = false := by
  have h1 : notify_status new now s = stop_timer { s with status := new } := by
    simp [notify_status, status_block, hch, hnp]
  rw [h1]
  have h2 : stop_timer { s with status := new } =
      { s with status := new, timer_diff := 0, _timer := false } := by
    unfold stop_timer
    by_cases hb : s._timer <;> simp [hb]
  rw [h2]
  refine ⟨rfl, rfl, rfl, ?_, ?_⟩
  · unfold frame
    by_cases hp : s.pending_frames = 0 <;> simp [hp]
  · unfold frame
    by_cases hp : s.pending_frames = 0 <;> simp [hp]

/-- Witness for C4: a running widget (status `pending`, timer on, last-known
eta 3) receives status `complete`. -/
theorem stop_on_leave_pending_witness :
    ("complete" ≠ pendingTimer.status) ∧
    ("complete" ≠ "pending") ∧
    (notify_status "complete" 100 pendingTimer).timer_diff = 0 ∧
    (notify_status "complete" 100 pendingTimer)._timer = false ∧
    (notify_status "complete" 100 pendingTimer).old_eta = some 3 := by
  have h := stop_on_leave_pending pendingTimer "complete" 100 200
    (by simp [pendingTimer, initTimer]) (by decide)
  refine ⟨by simp [pendingTimer, initTimer], by decide, h.1, h.2.1, ?_⟩
  rw [h.2.2.1]
  simp [pendingTimer, initTimer]

/-- C5: a second consecutive `pending` notification does not rerun the
reactive block (Svelte does not invalidate a primitive prop assigned an
equal value), so the timer state is untouched: `timer_start` stays at the
first start time and the next frame computes elapsed relative to it —
consistent with continuous running since the first start. -/
theorem double_start_consistent (s : TimerState) (t1 t2 now : ℚ)
    (h : s.status ≠ "pending") :
    notify_status "pending" t2 (notify_status "pending" t1 s)
      = notify_status "pending" t1 s ∧
    (notify_status "pending" t1 s).timer_start = t1 ∧
    (frame now (notify_status "pending" t2 (notify_status "pending" t1 s))).timer_diff
      = (now - t1) / 1000 := by
  have h1 : notify_status "pending" t1 s =
      start_timer t1 { s with status := "pending" } := by
    simp [notify_status, status_block, Ne.symm h]
  have h2 : (notify_status "pending" t1 s).status = "pending" := by
    rw [h1]; simp [start_timer, run]
  have h3 := notify_status_eq "pending" t2 (notify_status "pending" t1 s) h2
  refine ⟨h3, by rw [h1]; simp [start_timer, run], ?_⟩
  rw [h3, h1]
  simp [frame, start_timer, run]

/-- Witness for C5: starting at 1000 ms, a repeated `pending` at 3000 ms,
then a frame at 5000 ms shows 4 s elapsed — measured from the first start. -/
theorem double_start_consistent_witness :
    initTimer.status ≠ "pending" ∧
    notify_status "pending" 3000 (notify_status "pending" 1000 initTimer)
      = notify_status "pending" 1000 initTimer ∧
    (frame 5000 (notify_status "pending" 3000
      (notify_status "pending" 1000 initTimer))).timer_diff = 4 := by
  have h := double_start_consistent initTimer 1000 3000 5000 (by decide)
  refine ⟨by decide, h.1, ?_⟩
  rw [h.2.2]; norm_num

/-- C6 counterexample: the claim as stated says that after teardown while
running, no further write to `timer_diff` occurs.  Start the timer at 0
(this queues one animation-frame callback), destroy the widget, then let the
queued callback fire at 2000 ms: it writes `timer_diff = 2`, a state
mutation after the teardown hook has run. -/
theorem destroy_pending_frame_mutates :
    (onDestroy_hook (notify_status "pending" 0 initTimer)).timer_diff = 0 ∧
    (frame 2000 (onDestroy_hook (notify_status "pending" 0 initTimer))).timer_diff
      = 2 ∧
    (frame 2000 (onDestroy_hook (notify_status "pending" 0 initTimer))).timer_diff
      ≠ (onDestroy_hook (notify_status "pending" 0 initTimer)).timer_diff := by
  have h1 : notify_status "pending" 0 initTimer =
      (⟨true, 0, 0, none, none, none, false, "pending", 1⟩ : TimerState) := by
    simp [notify_status, initTimer, status_block, start_timer, run]
  have h2 : onDestroy_hook
      (⟨true, 0, 0, none, none, none, false, "pending", 1⟩ : TimerState) =
      (⟨false, 0, 0, none, none, none, false, "pending", 1⟩ : TimerState) := by
    simp [onDestroy_hook, stop_timer]
  have h3 : frame 2000
      (⟨false, 0, 0, none, none, none, false, "pending", 1⟩ : TimerState) =
      (⟨false, 0, 2, none, none, none, false, "pending", 0⟩ : TimerState) := by
    simp [frame]
    norm_num
  rw [h1, h2, h3]
  refine ⟨rfl, rfl, by norm_num⟩

/-- C6 (amended): tearing down while the timer is running (one queued frame
callback) clears the `_timer` flag but does not cancel the queued callback;
that callback fires at most once more — writing `timer_diff` one final
time — and does not reschedule, after which no further state mutation
occurs (a later frame step is the identity). -/
theorem destroy_stops_rescheduling (s : TimerState) (now now2 : ℚ)
    (ht : s._timer = true) (hp : s.pending_frames = 1) :
    (onDestroy_hook s)._timer = false ∧
    (onDestroy_hook s).pending_frames = 1 ∧
    (onDestroy_hook s).timer_diff = 0 ∧
    (frame now (onDestroy_hook s)).pending_frames = 0 ∧
    (frame now (onDestroy_hook s)).timer_diff = (now - s.timer_start) / 1000 ∧
    frame now2 (frame now (onDestroy_hook s)) = frame now (onDestroy_hook s) := by
  have h1 : onDestroy_hook s = { s with timer_diff := 0, _timer := false } := by
    simp [onDestroy_hook, stop_timer, ht]
  rw [h1]
  have h2 : frame now { s with timer_diff := 0, _timer := false } =
      { s with timer_diff := (now - s.timer_start) / 1000, _timer := false, pending_frames := 0 } := by
    unfold frame
    simp [hp]
  rw [h2]
  refine ⟨rfl, hp, rfl, rfl, rfl, ?_⟩
  unfold frame
  simp

/-- Witness for C6 (amended): a running widget with one queued callback is
destroyed; the callback fires once at 2000 ms and leaves the queue empty. -/
theorem destroy_stops_rescheduling_witness :
    runningTimer._timer = true ∧
    runningTimer.pending_frames = 1 ∧
    (frame 2000 (onDestroy_hook runningTimer)).pending_frames = 0 ∧
    frame 3000 (frame 2000 (onDestroy_hook runningTimer))
      = frame 2000 (onDestroy_hook runningTimer) := by
  have h := destroy_stops_rescheduling runningTimer 2000 3000 rfl rfl
  exact ⟨rfl, rfl, h.2.2.2.1, h.2.2.2.2.2⟩

/-- C7: once the stored last-known eta (`old_eta`) is non-null, it stays
non-null under every operation of the widget: starting or stopping the
timer, a frame tick, teardown, a status update, the eta block, and any eta
supply (including null).  No operation ever writes null into `old_eta`, so
the stated exception (stop and restart without a new value) also preserves
it. -/
theorem old_eta_no_regress (s : TimerState) (h : s.old_eta ≠ none)
    (now : ℚ) (e : Option ℚ) (st : String) :
    (start_timer now s).old_eta ≠ none ∧
    (stop_timer s).old_eta ≠ none ∧
    (frame now s).old_eta ≠ none ∧
    (onDestroy_hook s).old_eta ≠ none ∧
    (notify_status st now s).old_eta ≠ none ∧
    (eta_block now s).old_eta ≠ none ∧
    (supply_eta e now s).old_eta ≠ none := by
  have hstop : ∀ t : TimerState, (stop_timer t).old_eta = t.old_eta := by
    intro t
    unfold stop_timer
    cases hb : t._timer <;> simp [hb]
  have hframe : ∀ (n : ℚ) (t : TimerState), (frame n t).old_eta = t.old_eta := by
    intro n t
    unfold frame
    by_cases hp : t.pending_frames = 0
    · simp [hp]
    · cases hb : t._timer <;> simp [hp, hb, run]
  have hblock : ∀ (n : ℚ) (t : TimerState), t.old_eta ≠ none →
      (eta_block n t).old_eta ≠ none := by
    intro n t htn
    unfold eta_block
    cases he : t.eta with
    | none =>
      cases ho : t.old_eta with
      | none => exact absurd ho htn
      | some v => simp [he, ho]
    | some v => cases hqq : t.queue <;> simp [he, hqq]
  refine ⟨?_, ?_, ?_, ?_, ?_, hblock now s h, ?_⟩
  · simpa [start_timer, run] using h
  · rw [hstop]; exact h
  · rw [hframe]; exact h
  · unfold onDestroy_hook
    cases hb : s._timer <;> simpa [hstop] using h
  · unfold notify_status
    by_cases hst : st = s.status
    · simpa [hst] using h
    · rw [if_neg hst]
      unfold status_block
      by_cases hpd : ({ s with status := st } : TimerState).status = "pending"
      · rw [if_pos hpd]
        simpa [start_timer, run] using h
      · rw [if_neg hpd, hstop]
        simpa using h
  · exact hblock now { s with eta := e } (by simpa using h)

/-- Witness for C7: a state with last-known eta 7; every operation keeps
`old_eta` non-null, including a null eta supply. -/
theorem old_eta_no_regress_witness :
    (({ initTimer with old_eta := some 7 } : TimerState).old_eta ≠ none) ∧
    (supply_eta none 500 { initTimer with old_eta := some 7 }).old_eta ≠ none ∧
    (stop_timer { initTimer with old_eta := some 7 }).old_eta ≠ none := by
  have h := old_eta_no_regress { initTimer with old_eta := some 7 }
    (by simp [initTimer]) 500 none "error"
  exact ⟨by simp [initTimer], h.2.2.2.2.2.2, h.2.1⟩

/-- C9: `processMessages` never reads the event's origin or source window:
two events with the same `data` fields produce identical results whatever
their senders are; every event whose `data.type` is `image-editor-output`
makes the widget adopt the payload image and mask (into `value.image`,
`value.mask`, `imageEditorValue`) and dispatch a `change` event; every event
whose `data.type` is `loaded` posts the current image into the iframe. -/
theorem processMessages_no_origin_check (s : ImageEditor.EditorState)
    (e e2 : ImageEditor.EditorMsg)
    (ht : e.dataType = e2.dataType) (hi : e.detailImage = e2.detailImage)
    (hm : e.detailMask = e2.detailMask) :
    ImageEditor.processMessages e s = ImageEditor.processMessages e2 s ∧
    (e.dataType = some "image-editor-output" →
      ((ImageEditor.processMessages e s).1.valueImage = e.detailImage ∧
       (ImageEditor.processMessages e s).1.valueMask = e.detailMask ∧
       (ImageEditor.processMessages e s).1.imageEditorValue = e.detailImage ∧
       ImageEditor.Effect.change e.detailImage e.detailMask ∈
         (ImageEditor.processMessages e s).2)) ∧
    (e.dataType = some "loaded" →
      ImageEditor.Effect.post s.valueImage ∈ (ImageEditor.processMessages e s).2) := by
  refine ⟨?_, ?_, ?_⟩
  · simp [ImageEditor.processMessages, ht, hi, hm]
  · intro ho
    simp [ImageEditor.processMessages, ho]
  · intro hl
    have ho : ¬(e.dataType = some "image-editor-output") := by
      rw [hl]; decide
    simp [ImageEditor.processMessages, hl, ho]

/-- Witness for C9: an `image-editor-output` event from an untrusted origin
is adopted; an equal-data event from another origin gives the same result. -/
theorem processMessages_no_origin_check_witness :
    ImageEditor.outMsgEvil.dataType = ImageEditor.outMsgHost.dataType ∧
    ImageEditor.processMessages ImageEditor.outMsgEvil ImageEditor.stSynced
      = ImageEditor.processMessages ImageEditor.outMsgHost ImageEditor.stSynced ∧
    (ImageEditor.processMessages ImageEditor.outMsgEvil
      ImageEditor.stSynced).1.valueImage = some "img2" := by
  have h := processMessages_no_origin_check ImageEditor.stSynced
    ImageEditor.outMsgEvil ImageEditor.outMsgHost rfl rfl rfl
  exact ⟨rfl, h.1, (h.2.1 rfl).1⟩

/-- C10: after `processMessages` handles an `image-editor-output` event,
`imageEditorValue` equals `value.image`, so the reactive `compareValues`
pass on the updated state posts nothing into the iframe: an inbound output
message never echoes an outbound input message. -/
theorem no_echo_after_output (s : ImageEditor.EditorState)
    (e : ImageEditor.EditorMsg) (b : Bool)
    (h : e.dataType = some "image-editor-output") :
    (ImageEditor.processMessages e s).1.imageEditorValue
      = (ImageEditor.processMessages e s).1.valueImage ∧
    ImageEditor.compareValues b (ImageEditor.processMessages e s).1 = [] := by
  constructor <;>
    simp [ImageEditor.processMessages, ImageEditor.compareValues, h]

/-- Witness for C10: a concrete output event; the subsequent compare pass
posts nothing even with the iframe present. -/
theorem no_echo_after_output_witness :
    ImageEditor.outMsgPlain.dataType = some "image-editor-output" ∧
    ImageEditor.compareValues true
      (ImageEditor.processMessages ImageEditor.outMsgPlain
        ImageEditor.stFresh).1 = [] := by
  have h := no_echo_after_output ImageEditor.stFresh ImageEditor.outMsgPlain
    true rfl
  exact ⟨rfl, h.2⟩

end StatusTracker
